import Mathlib

/-!
Shallow embedding of `src/dxfTextToVector.py` (DXF TEXT/MTEXT → per-character
GeoJSON polygon features).

Numeric values are modelled as rationals.  External collaborators (the ezdxf
drawing reader, the matplotlib font/outline provider, the pyproj projection,
and the trigonometric functions applied to the rotation angle) are modelled
as parameters of the pipeline: the embedding is faithful to the Python
control flow and arithmetic of the script, while collaborator results are
supplied by oracles carried in a context record.
-/

/-- A 3-vector, as used for `np.array(entity.dxf.insert)` and positions. -/
abbrev V3 := ℚ × ℚ × ℚ

/-- Componentwise vector addition (`current_pos + rotated_vec`, etc.). -/
def vadd (a b : V3) : V3 := (a.1 + b.1, a.2.1 + b.2.1, a.2.2 + b.2.2)

/-- `v @ rot_matrix.T[:3,:3]` for the script's rotation matrix
`[[cos, -sin, 0], [sin, cos, 0], [0, 0, 1]]`: a counterclockwise rotation of
the xy-components by the angle with cosine `c` and sine `s`, fixing z. -/
def rotVec (c s : ℚ) (v : V3) : V3 :=
  (c * v.1 - s * v.2.1, s * v.1 + c * v.2.1, v.2.2)

/-- Result of `get_char_path` when it succeeds: the matplotlib `TextPath`
for one character, reduced to what the script consumes — `path.vertices`
(a list of 2-D points) and the outcome of `path.get_extents().width`
(`none` models the call raising an exception, which the script catches). -/
structure CharPath where
  vertices : List (ℚ × ℚ)
  extentsWidth : Option ℚ
deriving DecidableEq

/-- One emitted GeoJSON feature: the polygon ring handed to
`Polygon(transformed_verts)` plus the `properties` dict of the script
(`text`, `char`, `layer`, `font`, `insert_x_wcs`, `insert_y_wcs`). -/
structure Feature where
  polygon : List (ℚ × ℚ)
  text : String
  char : Char
  layer : String
  font : String
  insertX : ℚ
  insertY : ℚ
deriving DecidableEq

/-- Pipeline context: the collaborator oracles fixed for one run.
`glyph ch size` models `get_char_path(ch, font_prop, size)` (the cache is
observationally transparent: it returns the same value for the same key, so
it is modelled by the pure oracle itself); `cosd`/`sind` model
`np.cos(np.deg2rad ·)`/`np.sin(np.deg2rad ·)`; `transform` models
`transformer.transform`; `fontName` models `font_prop.get_name()`. -/
structure Ctx where
  glyph : Char → ℚ → Option CharPath
  cosd : ℚ → ℚ
  sind : ℚ → ℚ
  transform : ℚ → ℚ → ℚ × ℚ
  fontName : String

/-- Python's `str.isspace()` restricted to the ASCII whitespace characters
(the cases relevant to the script's text content). -/
def pyIsSpace (c : Char) : Bool :=
  c == ' ' || c == '\t' || c == '\n' || c == '\x0b' || c == '\x0c' || c == '\r'

/-- A TEXT entity as the script reads it: `dxf.text`, `dxf.insert`,
`dxf.height`, `dxf.rotation`, `dxf.layer`, the truthiness of `entity.doc`,
and the entity's OCS→WCS mapping `ocs().to_wcs` (an ezdxf collaborator
affine map, carried as an oracle on the entity). -/
structure TextEntity where
  text : String
  insert : V3
  height : ℚ
  rotation : ℚ
  layer : String
  hasDoc : Bool
  ocsToWcs : V3 → V3

/-- First loop of `transform_text_entity` (total string width): whitespace
adds `height * 0.5`; a resolvable character adds its measured extents width,
or `height * 0.5` when the measurement raises; a character whose path
creation failed (`char_path` is `None`, hence falsy) adds nothing. -/
def charWidthSum (ctx : Ctx) (h : ℚ) : List Char → ℚ
  | [] => 0
  | ch :: rest =>
    (if pyIsSpace ch then h * (1/2)
     else
       match ctx.glyph ch h with
       | none => 0
       | some p =>
         match p.extentsWidth with
         | some w => w
         | none => h * (1/2)) + charWidthSum ctx h rest

/-- Per-vertex transform of the character loop: rotate the glyph vertex,
translate by the current pen position, map OCS→WCS, then project world x/y
through the CRS transformer, yielding the `(lon, lat)` pair. -/
def charXform (ctx : Ctx) (e : TextEntity) (c s : ℚ) (pos : V3) (v : ℚ × ℚ) : ℚ × ℚ :=
  let rv := rotVec c s (v.1, v.2, 0)
  let ocsPt := vadd pos rv
  let wpt := e.ocsToWcs ocsPt
  ctx.transform wpt.1 wpt.2.1

/-- One iteration of the character loop of `transform_text_entity`
(lines 119–152): on `char_path is None` the iteration is skipped entirely
(`continue`), so the pen does not move; otherwise the width is the measured
extents width with fallback `height * 0.5`, a non-whitespace character with
at least 3 transformed vertices emits one feature, and the pen advances by
the rotated width vector.  Returns (new pen position, emitted features). -/
def charStep (ctx : Ctx) (e : TextEntity) (c s : ℚ) (pos : V3) (ch : Char) :
    V3 × List Feature :=
  match ctx.glyph ch e.height with
  | none => (pos, [])
  | some p =>
    let w := p.extentsWidth.getD (e.height * (1/2))
    (vadd pos (rotVec c s (w, 0, 0)),
     if pyIsSpace ch then []
     else
       let tverts := p.vertices.map (charXform ctx e c s pos)
       if 3 ≤ tverts.length then
         [{ polygon := tverts, text := e.text, char := ch, layer := e.layer,
            font := ctx.fontName, insertX := e.insert.1, insertY := e.insert.2.1 }]
       else [])

/-- The character loop of `transform_text_entity`, threading the pen. -/
def charLoop (ctx : Ctx) (e : TextEntity) (c s : ℚ) : V3 → List Char → List Feature
  | _, [] => []
  | pos, ch :: rest =>
    (charStep ctx e c s pos ch).2 ++
      charLoop ctx e c s (charStep ctx e c s pos ch).1 rest

/-- `transform_text_entity`: skip when the text is in the exclusion list
(exact membership) or the entity has no document; otherwise compute the
total width, start the pen at the insertion point shifted by the rotated
`(-total_width / 2, 0, 0)` offset, and run the character loop. -/
def transform_text_entity (ctx : Ctx) (e : TextEntity) (exclude : List String) :
    List Feature :=
  if e.text ∈ exclude then []
  else if e.hasDoc = false then []
  else
    let c := ctx.cosd e.rotation
    let s := ctx.sind e.rotation
    let totalWidth := charWidthSum ctx e.height e.text.toList
    let startPos := vadd e.insert (rotVec c s (-(totalWidth / 2), 0, 0))
    charLoop ctx e c s startPos e.text.toList

/-- An MTEXT entity as the script consumes it: `plain_text()` and the
per-line TEXT fragments yielded by the ezdxf collaborator's
`virtual_entities()` (already carrying their own positions/rotations). -/
structure MTextEntity where
  plainText : String
  lines : List TextEntity

/-- `transform_mtext_entity`: skip when the plain text is excluded,
otherwise process every virtual line fragment as a TEXT entity. -/
def transform_mtext_entity (ctx : Ctx) (m : MTextEntity) (exclude : List String) :
    List Feature :=
  if m.plainText ∈ exclude then []
  else m.lines.flatMap (fun l => transform_text_entity ctx l exclude)

/-- A modelspace entity as matched by the script: TEXT, MTEXT, INSERT (with
its block content), or anything else.  INSERT content may itself contain
INSERT entities (nested blocks). -/
inductive Entity where
  | text (t : TextEntity)
  | mtext (m : MTextEntity)
  | insert (blk : List Entity)
  | other

/-- Modelled from the spec: `entity.explode()` of the ezdxf drawing
collaborator, which is not part of this repository.  Per the spec the
walker "expands block-reference (INSERT) entities into their
world-transformed sub-entities (recursively, bounded)": nested INSERTs are
flattened depth-first in order, and exceeding the recursion bound (`fuel`)
is the `RecursionError`/`DXFStructureError` failure (`none`) that the
script catches per-INSERT. -/
def explodeL : Nat → List Entity → Option (List Entity)
  | _, [] => some []
  | fuel, Entity.insert blk :: rest =>
    match fuel with
    | 0 => none
    | f + 1 =>
      match explodeL f blk, explodeL (f + 1) rest with
      | some inner, some tail => some (inner ++ tail)
      | _, _ => none
  | fuel, e :: rest =>
    match explodeL fuel rest with
    | some tail => some (e :: tail)
    | none => none
termination_by fuel es => (fuel, es.length)

/-- `process_entity` (lines 203–215): dispatch a TEXT or MTEXT entity to
its processing function; everything else contributes nothing.  (The
script's `if features:` guard before `extend` is a no-op for the
accumulated list.) -/
def processEntityFeatures (ctx : Ctx) (exclude : List String) : Entity → List Feature
  | Entity.text t => transform_text_entity ctx t exclude
  | Entity.mtext m => transform_mtext_entity ctx m exclude
  | _ => []

/-- The entity loop of `dxf_to_geojson` (lines 227–237): a top-level INSERT
is exploded and each exploded sub-entity is processed in order before the
loop advances (explosion failure is caught and the INSERT contributes
nothing); other entities are processed directly.  `acc` is `all_features`. -/
def walkEntities (ctx : Ctx) (exclude : List String) (fuel : Nat) :
    List Entity → List Feature → List Feature
  | [], acc => acc
  | Entity.insert blk :: rest, acc =>
    (match explodeL fuel blk with
     | none => walkEntities ctx exclude fuel rest acc
     | some subs =>
       walkEntities ctx exclude fuel rest
         (acc ++ subs.flatMap (processEntityFeatures ctx exclude)))
  | e :: rest, acc =>
    walkEntities ctx exclude fuel rest (acc ++ processEntityFeatures ctx exclude e)

/-- All features contributed by one top-level entity: for an INSERT, the
features of its (recursively exploded, depth-first ordered) sub-entities,
or nothing when explosion fails; otherwise its own features. -/
def entityFeatures (ctx : Ctx) (exclude : List String) (fuel : Nat) :
    Entity → List Feature
  | Entity.insert blk =>
    (match explodeL fuel blk with
     | none => []
     | some subs => subs.flatMap (processEntityFeatures ctx exclude))
  | e => processEntityFeatures ctx exclude e

/-- Configuration of one `dxf_to_geojson` run.  `readResult` models
`ezdxf.readfile` + `msp.query("TEXT MTEXT INSERT")` (`none` = the caught
read/structure error); `fontOk` models `os.path.exists(font_path)`;
`crsOk` models whether `pyproj.Transformer.from_crs` succeeds; `glyph` is
the font-outline oracle per font name. -/
structure RunConfig where
  readResult : Option (List Entity)
  fontOk : Bool
  requestedFontName : String
  defaultFontName : String
  crsOk : Bool
  fuel : Nat
  exclude : List String
  glyph : String → Char → ℚ → Option CharPath
  cosd : ℚ → ℚ
  sind : ℚ → ℚ
  transform : ℚ → ℚ → ℚ × ℚ

/-- `get_font_properties`: a valid font path is used as given; an invalid
one produces a warning and falls back to the system default sans-serif
font.  Returns (font name used, whether the fallback fired). -/
def get_font_properties (cfg : RunConfig) : String × Bool :=
  if cfg.fontOk then (cfg.requestedFontName, false)
  else (cfg.defaultFontName, true)

/-- The context a run uses once its font name is fixed. -/
def mkCtx (cfg : RunConfig) (fname : String) : Ctx :=
  { glyph := cfg.glyph fname, cosd := cfg.cosd, sind := cfg.sind
    transform := cfg.transform, fontName := fname }

/-- Observable outcome of `dxf_to_geojson`: `written` is the feature
collection passed to `dump` (`none` when the function returns before the
output step), plus the three observable warning conditions. -/
structure RunOutcome where
  written : Option (List Feature)
  fontFallback : Bool
  warnedNoEntities : Bool
  warnedNoFeatures : Bool
deriving DecidableEq

/-- `dxf_to_geojson` (lines 177–251): read (abort on failure), pick the
font (never aborts), build the CRS transformer (abort on failure), return
early without writing when the query finds no entities, otherwise walk the
entities and write the collection (empty collections are written, with a
warning). -/
def dxf_to_geojson (cfg : RunConfig) : RunOutcome :=
  match cfg.readResult with
  | none => { written := none, fontFallback := false
              warnedNoEntities := false, warnedNoFeatures := false }
  | some es =>
    let fp := get_font_properties cfg
    if cfg.crsOk = false then
      { written := none, fontFallback := fp.2
        warnedNoEntities := false, warnedNoFeatures := false }
    else if es.isEmpty then
      { written := none, fontFallback := fp.2
        warnedNoEntities := true, warnedNoFeatures := false }
    else
      let feats := walkEntities (mkCtx cfg fp.1) cfg.exclude cfg.fuel es []
      { written := some feats, fontFallback := fp.2
        warnedNoEntities := false, warnedNoFeatures := feats.isEmpty }

/-- The x-coordinates of all polygon vertices of a feature list (used to
express the pre-rotation horizontal bounding span). -/
def xsOf (fs : List Feature) : List ℚ :=
  fs.flatMap (fun f => f.polygon.map Prod.fst)

/-- A character whose glyph resolves "ideally" at size `h`: non-whitespace,
path creation succeeds, the width measurement succeeds with a nonnegative
width, the outline has at least 3 vertices, and the outline's x-extent is
exactly the interval `[0, width]` (zero left side bearing). -/
def NiceChar (ctx : Ctx) (h : ℚ) (ch : Char) : Prop :=
  pyIsSpace ch = false ∧
  ∃ p w, ctx.glyph ch h = some p ∧ p.extentsWidth = some w ∧ 0 ≤ w ∧
    3 ≤ p.vertices.length ∧
    (∀ v ∈ p.vertices, 0 ≤ v.1 ∧ v.1 ≤ w) ∧
    (∃ v ∈ p.vertices, v.1 = 0) ∧
    (∃ v ∈ p.vertices, v.1 = w)

/-! ### Helper lemmas about the walker -/

lemma walkEntities_eq_flatMap (ctx : Ctx) (exclude : List String) (fuel : Nat) :
    ∀ (es : List Entity) (acc : List Feature),
      walkEntities ctx exclude fuel es acc =
        acc ++ es.flatMap (entityFeatures ctx exclude fuel) := by
  intro es
  induction es with
  | nil => intro acc; simp [walkEntities]
  | cons e rest ih =>
    intro acc
    cases e with
    | insert blk =>
      cases h : explodeL fuel blk with
      | none => simp [walkEntities, entityFeatures, h, ih]
      | some subs => simp [walkEntities, entityFeatures, h, ih]
    | text t => simp [walkEntities, entityFeatures, ih]
    | mtext m => simp [walkEntities, entityFeatures, ih]
    | other => simp [walkEntities, entityFeatures, ih]

lemma dxf_written_eq (cfg : RunConfig) (feats : List Feature)
    (h : (dxf_to_geojson cfg).written = some feats) :
    ∃ es, cfg.readResult = some es ∧
      feats = walkEntities (mkCtx cfg (get_font_properties cfg).1)
        cfg.exclude cfg.fuel es [] := by
  cases hr : cfg.readResult with
  | none => simp [dxf_to_geojson, hr] at h
  | some es =>
    refine ⟨es, rfl, ?_⟩
    by_cases hc : cfg.crsOk = false
    · simp [dxf_to_geojson, hr, hc] at h
    · by_cases he : es.isEmpty
      · simp [dxf_to_geojson, hr, hc, he] at h
      · simp [dxf_to_geojson, hr, hc, he] at h
        exact h.symm

/-! ### Helper lemmas about the character loop -/

lemma charStep_mem (ctx : Ctx) (e : TextEntity) (c s : ℚ) (pos : V3) (ch : Char)
    (f : Feature) (hf : f ∈ (charStep ctx e c s pos ch).2) :
    3 ≤ f.polygon.length ∧ f.insertX = e.insert.1 ∧ f.insertY = e.insert.2.1 ∧
      f.char = ch ∧ f.text = e.text ∧ f.layer = e.layer ∧ f.font = ctx.fontName := by
  unfold charStep at hf
  cases hg : ctx.glyph ch e.height with
  | none => simp [hg] at hf
  | some p =>
    simp only [hg] at hf
    by_cases hsp : pyIsSpace ch
    · simp [hsp] at hf
    · simp [hsp] at hf
      obtain ⟨hlen, rfl⟩ := hf
      refine ⟨?_, rfl, rfl, rfl, rfl, rfl, rfl⟩
      simpa using hlen

lemma charLoop_mem (ctx : Ctx) (e : TextEntity) (c s : ℚ) :
    ∀ (cs : List Char) (pos : V3) (f : Feature),
      f ∈ charLoop ctx e c s pos cs →
      ∃ pos2 ch, ch ∈ cs ∧ f ∈ (charStep ctx e c s pos2 ch).2 := by
  intro cs
  induction cs with
  | nil => intro pos f hf; simp [charLoop] at hf
  | cons ch rest ih =>
    intro pos f hf
    simp only [charLoop, List.mem_append] at hf
    rcases hf with hf | hf
    · exact ⟨pos, ch, List.mem_cons_self ch rest, hf⟩
    · obtain ⟨pos2, ch2, hmem, hf2⟩ := ih (charStep ctx e c s pos ch).1 f hf
      exact ⟨pos2, ch2, List.mem_cons_of_mem ch hmem, hf2⟩

lemma transform_text_mem (ctx : Ctx) (e : TextEntity) (exclude : List String)
    (f : Feature) (hf : f ∈ transform_text_entity ctx e exclude) :
    ∃ c s pos ch, ch ∈ e.text.toList ∧ f ∈ (charStep ctx e c s pos ch).2 := by
  unfold transform_text_entity at hf
  by_cases hex : e.text ∈ exclude
  · simp [hex] at hf
  · by_cases hdoc : e.hasDoc = false
    · simp [hex, hdoc] at hf
    · simp only [hex, if_false, hdoc] at hf
      obtain ⟨pos2, ch, hmem, hf2⟩ := charLoop_mem ctx e _ _ _ _ f hf
      exact ⟨_, _, pos2, ch, hmem, hf2⟩

lemma processEntity_mem (ctx : Ctx) (exclude : List String) (ent : Entity)
    (f : Feature) (hf : f ∈ processEntityFeatures ctx exclude ent) :
    ∃ te, f ∈ transform_text_entity ctx te exclude := by
  cases ent with
  | text t => exact ⟨t, hf⟩
  | mtext m =>
    unfold processEntityFeatures transform_mtext_entity at hf
    by_cases hex : m.plainText ∈ exclude
    · simp [hex] at hf
    · simp only [hex, if_false] at hf
      obtain ⟨l, _, hfl⟩ := List.mem_flatMap.mp hf
      exact ⟨l, hfl⟩
  | insert blk => simp [processEntityFeatures] at hf
  | other => simp [processEntityFeatures] at hf

lemma entityFeatures_mem (ctx : Ctx) (exclude : List String) (fuel : Nat)
    (ent : Entity) (f : Feature) (hf : f ∈ entityFeatures ctx exclude fuel ent) :
    ∃ te, f ∈ transform_text_entity ctx te exclude := by
  cases ent with
  | insert blk =>
    unfold entityFeatures at hf
    cases h : explodeL fuel blk with
    | none => simp [h] at hf
    | some subs =>
      simp only [h] at hf
      obtain ⟨sub, _, hfs⟩ := List.mem_flatMap.mp hf
      exact processEntity_mem ctx exclude sub f hfs
  | text t => exact processEntity_mem ctx exclude (Entity.text t) f hf
  | mtext m => exact processEntity_mem ctx exclude (Entity.mtext m) f hf
  | other => simp [entityFeatures, processEntityFeatures] at hf

/-! ### Helper lemmas for the centering analysis (identity transforms) -/

lemma charXform_ident (ctx : Ctx) (e : TextEntity) (pos : V3) (v : ℚ × ℚ)
    (hocs : ∀ q, e.ocsToWcs q = q) (htr : ∀ x y, ctx.transform x y = (x, y)) :
    charXform ctx e 1 0 pos v = (pos.1 + v.1, pos.2.1 + v.2) := by
  simp [charXform, rotVec, vadd, hocs, htr]

lemma charWidthSum_nonneg_nice (ctx : Ctx) (h : ℚ) :
    ∀ cs : List Char, (∀ ch ∈ cs, NiceChar ctx h ch) →
      0 ≤ charWidthSum ctx h cs := by
  intro cs
  induction cs with
  | nil => intro _; simp [charWidthSum]
  | cons ch rest ih =>
    intro hnice
    obtain ⟨hsp, p, w, hg, hw, hw0, -⟩ := hnice ch (List.mem_cons_self ch rest)
    have hrest := ih (fun c hc => hnice c (List.mem_cons_of_mem ch hc))
    simp only [charWidthSum, hsp, hg, hw, Bool.false_eq_true, if_false]
    linarith

lemma charLoop_span (ctx : Ctx) (e : TextEntity)
    (hocs : ∀ q, e.ocsToWcs q = q) (htr : ∀ x y, ctx.transform x y = (x, y)) :
    ∀ (cs : List Char) (pos : V3), cs ≠ [] →
      (∀ ch ∈ cs, NiceChar ctx e.height ch) →
      (∀ x ∈ xsOf (charLoop ctx e 1 0 pos cs),
          pos.1 ≤ x ∧ x ≤ pos.1 + charWidthSum ctx e.height cs) ∧
        pos.1 ∈ xsOf (charLoop ctx e 1 0 pos cs) ∧
        pos.1 + charWidthSum ctx e.height cs ∈ xsOf (charLoop ctx e 1 0 pos cs) := by
  intro cs
  induction cs with
  | nil => intro pos hne _; exact absurd rfl hne
  | cons ch rest ih =>
    intro pos _ hnice
    obtain ⟨hsp, p, w, hg, hw, hw0, hlen, hbound, ⟨v0, hv0mem, hv0⟩, ⟨v1, hv1mem, hv1⟩⟩ :=
      hnice ch (List.mem_cons_self ch rest)
    have hnrest : ∀ c ∈ rest, NiceChar ctx e.height c :=
      fun c hc => hnice c (List.mem_cons_of_mem ch hc)
    have hstep : charStep ctx e 1 0 pos ch =
        (vadd pos (rotVec 1 0 (w, 0, 0)),
         [{ polygon := p.vertices.map (charXform ctx e 1 0 pos), text := e.text,
            char := ch, layer := e.layer, font := ctx.fontName,
            insertX := e.insert.1, insertY := e.insert.2.1 }]) := by
      simp [charStep, hg, hw, hsp, hlen]
    have hpos1 : (vadd pos (rotVec 1 0 (w, 0, 0))).1 = pos.1 + w := by
      simp [vadd, rotVec]
    have hpoly : (p.vertices.map (charXform ctx e 1 0 pos)).map Prod.fst =
        p.vertices.map (fun v => pos.1 + v.1) := by
      rw [List.map_map]
      refine List.map_congr_left (fun v _ => ?_)
      simp [charXform_ident ctx e pos v hocs htr]
    have hxs : xsOf (charLoop ctx e 1 0 pos (ch :: rest)) =
        p.vertices.map (fun v => pos.1 + v.1) ++
          xsOf (charLoop ctx e 1 0 (vadd pos (rotVec 1 0 (w, 0, 0))) rest) := by
      simp only [charLoop, hstep, xsOf, List.flatMap_append, List.flatMap_cons,
        List.flatMap_nil, List.append_nil]
      rw [hpoly]
    have hsum : charWidthSum ctx e.height (ch :: rest) =
        w + charWidthSum ctx e.height rest := by
      simp [charWidthSum, hsp, hg, hw]
    cases rest with
    | nil =>
      rw [hxs, hsum]
      simp only [charLoop, xsOf, List.flatMap_nil, List.append_nil, charWidthSum]
      refine ⟨?_, ?_, ?_⟩
      · intro x hx
        obtain ⟨v, hv, rfl⟩ := List.mem_map.mp hx
        obtain ⟨h0, h1⟩ := hbound v hv
        constructor <;> linarith
      · exact List.mem_map.mpr ⟨v0, hv0mem, by rw [hv0]; ring⟩
      · exact List.mem_map.mpr ⟨v1, hv1mem, by rw [hv1]; ring⟩
    | cons ch2 rest2 =>
      obtain ⟨ihb, ihlo, ihhi⟩ :=
        ih (vadd pos (rotVec 1 0 (w, 0, 0))) (List.cons_ne_nil ch2 rest2) hnrest
      have hrest0 : 0 ≤ charWidthSum ctx e.height (ch2 :: rest2) :=
        charWidthSum_nonneg_nice ctx e.height (ch2 :: rest2) hnrest
      rw [hxs, hsum]
      refine ⟨?_, ?_, ?_⟩
      · intro x hx
        rcases List.mem_append.mp hx with hx | hx
        · obtain ⟨v, hv, rfl⟩ := List.mem_map.mp hx
          obtain ⟨h0, h1⟩ := hbound v hv
          constructor <;> linarith
        · obtain ⟨hlow, hhigh⟩ := ihb x hx
          rw [hpos1] at hlow hhigh
          constructor <;> linarith
      · exact List.mem_append.mpr (Or.inl
          (List.mem_map.mpr ⟨v0, hv0mem, by rw [hv0]; ring⟩))
      · refine List.mem_append.mpr (Or.inr ?_)
        have : pos.1 + (w + charWidthSum ctx e.height (ch2 :: rest2)) =
            (vadd pos (rotVec 1 0 (w, 0, 0))).1 +
              charWidthSum ctx e.height (ch2 :: rest2) := by
          rw [hpos1]; ring
        rw [this]
        exact ihhi

/-! ### Claim C1 -/

/-- Claim C1: INSERT expansion is recursive and depth-first — the walker's
output is the in-order concatenation of each top-level entity's features,
where an INSERT contributes the features of all its recursively exploded
sub-entities (nested text at any depth) before the walker advances; in
particular a TEXT entity nested two INSERT levels deep is fully processed
as part of its top-level INSERT. -/
theorem c1_insert_expansion_depth_first :
    (∀ (ctx : Ctx) (exclude : List String) (fuel : Nat) (es : List Entity)
        (acc : List Feature),
        walkEntities ctx exclude fuel es acc =
          acc ++ es.flatMap (entityFeatures ctx exclude fuel)) ∧
    (∀ (ctx : Ctx) (exclude : List String) (f : Nat) (t : TextEntity),
        entityFeatures ctx exclude (f + 1 + 1)
            (Entity.insert [Entity.insert [Entity.text t]]) =
          transform_text_entity ctx t exclude) := by
  constructor
  · exact fun ctx exclude fuel => walkEntities_eq_flatMap ctx exclude fuel
  · intro ctx exclude f t
    simp [entityFeatures, explodeL, processEntityFeatures]

/-! ### Claim C7 -/

/-- Claim C7: every feature in a written output collection has a polygon
with at least 3 vertices; whitespace characters, failed glyph resolution,
and outlines with fewer than 3 transformed vertices never produce a
feature. -/
theorem c7_polygon_validity :
    (∀ (cfg : RunConfig) (feats : List Feature) (f : Feature),
        (dxf_to_geojson cfg).written = some feats → f ∈ feats →
        3 ≤ f.polygon.length) ∧
    (∀ (ctx : Ctx) (e : TextEntity) (c s : ℚ) (pos : V3) (ch : Char),
        pyIsSpace ch = true → (charStep ctx e c s pos ch).2 = []) ∧
    (∀ (ctx : Ctx) (e : TextEntity) (c s : ℚ) (pos : V3) (ch : Char),
        ctx.glyph ch e.height = none → (charStep ctx e c s pos ch).2 = []) ∧
    (∀ (ctx : Ctx) (e : TextEntity) (c s : ℚ) (pos : V3) (ch : Char)
        (p : CharPath),
        ctx.glyph ch e.height = some p → p.vertices.length < 3 →
        (charStep ctx e c s pos ch).2 = []) := by
  refine ⟨?_, ?_, ?_, ?_⟩
  · intro cfg feats f hw hf
    obtain ⟨es, -, hfeats⟩ := dxf_written_eq cfg feats hw
    rw [hfeats, walkEntities_eq_flatMap, List.nil_append] at hf
    obtain ⟨ent, -, hfe⟩ := List.mem_flatMap.mp hf
    obtain ⟨te, hfte⟩ := entityFeatures_mem _ _ _ ent f hfe
    obtain ⟨c, s, pos, ch, -, hfc⟩ := transform_text_mem _ te _ f hfte
    exact (charStep_mem _ te c s pos ch f hfc).1
  · intro ctx e c s pos ch hsp
    cases hg : ctx.glyph ch e.height with
    | none => simp [charStep, hg]
    | some p => simp [charStep, hg, hsp]
  · intro ctx e c s pos ch hg
    simp [charStep, hg]
  · intro ctx e c s pos ch p hg hlt
    have hn : ¬ 3 ≤ p.vertices.length := not_le.mpr hlt
    by_cases hsp : pyIsSpace ch
    · simp [charStep, hg, hsp]
    · simp [charStep, hg, hsp, hn]

/-- Concrete entity and run configuration exercising C7. -/
def teC7 : TextEntity :=
  { text := "A", insert := (0, 0, 0), height := 2, rotation := 0, layer := "L",
    hasDoc := true, ocsToWcs := fun q => q }

def cfgC7 : RunConfig :=
  { readResult := some [Entity.text teC7], fontOk := true,
    requestedFontName := "F", defaultFontName := "D", crsOk := true, fuel := 0,
    exclude := ["0", "0.0"],
    glyph := fun _ ch _ =>
      if ch = 'A' then
        some { vertices := [(0, 0), (1, 0), (0, 1)], extentsWidth := some 1 }
      else none,
    cosd := fun _ => 1, sind := fun _ => 0, transform := fun x y => (x, y) }

def featC7 : Feature :=
  { polygon := [(-(1/2), 0), (1/2, 0), (-(1/2), 1)], text := "A", char := 'A',
    layer := "L", font := "F", insertX := 0, insertY := 0 }

theorem c7_polygon_validity_witness :
    (dxf_to_geojson cfgC7).written = some [featC7] ∧ 3 ≤ featC7.polygon.length := by
  constructor
  · norm_num [dxf_to_geojson, cfgC7, teC7, featC7, get_font_properties, mkCtx,
      walkEntities, processEntityFeatures, transform_text_entity, charWidthSum,
      charLoop, charStep, charXform, rotVec, vadd, pyIsSpace]
    rw [if_neg (by decide), if_neg (by decide)]
  · refine c7_polygon_validity.1 cfgC7 [featC7] featC7 ?_ (by simp)
    norm_num [dxf_to_geojson, cfgC7, teC7, featC7, get_font_properties, mkCtx,
      walkEntities, processEntityFeatures, transform_text_entity, charWidthSum,
      charLoop, charStep, charXform, rotVec, vadd, pyIsSpace]
    rw [if_neg (by decide), if_neg (by decide)]

/-! ### Claim C9 -/

/-- Claim C9 (amended): the `insert_x_wcs`/`insert_y_wcs` feature properties
record the entity's raw `dxf.insert` point, without applying the entity's
OCS-to-world transform; they equal the world-frame insertion point exactly
when that transform fixes the insertion point. -/
theorem c9_insert_metadata_is_raw :
    ∀ (ctx : Ctx) (e : TextEntity) (exclude : List String) (f : Feature),
      f ∈ transform_text_entity ctx e exclude →
      f.insertX = e.insert.1 ∧ f.insertY = e.insert.2.1 ∧
      (e.ocsToWcs e.insert = e.insert →
        f.insertX = (e.ocsToWcs e.insert).1 ∧
          f.insertY = (e.ocsToWcs e.insert).2.1) := by
  intro ctx e exclude f hf
  obtain ⟨c, s, pos, ch, -, hfc⟩ := transform_text_mem ctx e exclude f hf
  obtain ⟨-, hx, hy, -⟩ := charStep_mem ctx e c s pos ch f hfc
  refine ⟨hx, hy, fun hid => ?_⟩
  rw [hid]
  exact ⟨hx, hy⟩

/-- Entity whose OCS-to-world transform shifts x by 7: the recorded
metadata stays at the raw OCS insertion point. -/
def teC9 : TextEntity :=
  { text := "A", insert := (0, 0, 0), height := 2, rotation := 0, layer := "L",
    hasDoc := true, ocsToWcs := fun q => (q.1 + 7, q.2.1, q.2.2) }

def ctxC9 : Ctx :=
  { glyph := fun ch _ =>
      if ch = 'A' then
        some { vertices := [(0, 0), (1, 0), (0, 1)], extentsWidth := some 1 }
      else none,
    cosd := fun _ => 1, sind := fun _ => 0, transform := fun x y => (x, y),
    fontName := "F" }

theorem c9_insert_metadata_cex :
    (transform_text_entity ctxC9 teC9 []).map Feature.insertX = [0] ∧
    (teC9.ocsToWcs teC9.insert).1 = 7 ∧ (0 : ℚ) ≠ 7 := by
  refine ⟨?_, by norm_num [teC9], by norm_num⟩
  norm_num [transform_text_entity, ctxC9, teC9, charWidthSum, charLoop,
    charStep, charXform, rotVec, vadd, pyIsSpace]
  rw [if_neg (by decide)]
  rfl

/-- Identity-OCS instance for the C9 witness. -/
def teC9w : TextEntity :=
  { text := "A", insert := (3, 4, 0), height := 2, rotation := 0, layer := "L",
    hasDoc := true, ocsToWcs := fun q => q }

def featC9w : Feature :=
  { polygon := [(3 - 1/2, 4), (3 + 1/2, 4), (3 - 1/2, 5)], text := "A",
    char := 'A', layer := "L", font := "F", insertX := 3, insertY := 4 }

theorem c9_insert_metadata_witness :
    featC9w ∈ transform_text_entity ctxC9 teC9w [] ∧
    featC9w.insertX = teC9w.insert.1 ∧ featC9w.insertY = teC9w.insert.2.1 := by
  have hmem : featC9w ∈ transform_text_entity ctxC9 teC9w [] := by
    norm_num [transform_text_entity, ctxC9, teC9w, featC9w, charWidthSum,
      charLoop, charStep, charXform, rotVec, vadd, pyIsSpace]
    decide
  obtain ⟨hx, hy, -⟩ := c9_insert_metadata_is_raw ctxC9 teC9w [] featC9w hmem
  exact ⟨hmem, hx, hy⟩

/-! ### Claim C10 -/

/-- Claim C10: for an MTEXT whose plain text is not excluded, the exclusion
list is applied again per line fragment — an excluded line contributes no
features, and the MTEXT's output equals the output with that line removed. -/
theorem c10_mtext_per_line_exclusion :
    ∀ (ctx : Ctx) (m : MTextEntity) (exclude : List String)
      (pre post : List TextEntity) (l : TextEntity),
      m.plainText ∉ exclude → l.text ∈ exclude →
      m.lines = pre ++ l :: post →
      transform_text_entity ctx l exclude = [] ∧
      transform_mtext_entity ctx m exclude =
        transform_mtext_entity ctx { m with lines := pre ++ post } exclude := by
  intro ctx m exclude pre post l hm hl hlines
  have hline : transform_text_entity ctx l exclude = [] := by
    simp [transform_text_entity, hl]
  refine ⟨hline, ?_⟩
  simp only [transform_mtext_entity, hm, if_false, hlines, List.flatMap_append,
    List.flatMap_cons, hline, List.nil_append]

/-- Concrete MTEXT with a line whose own text is excluded. -/
def teC10a : TextEntity :=
  { text := "keep", insert := (0, 0, 0), height := 2, rotation := 0,
    layer := "L", hasDoc := true, ocsToWcs := fun q => q }

def teC10b : TextEntity :=
  { text := "0", insert := (0, 5, 0), height := 2, rotation := 0,
    layer := "L", hasDoc := true, ocsToWcs := fun q => q }

def mtC10 : MTextEntity := { plainText := "keep\n0", lines := [teC10a, teC10b] }

def ctxC10 : Ctx :=
  { glyph := fun _ _ => none, cosd := fun _ => 1, sind := fun _ => 0,
    transform := fun x y => (x, y), fontName := "F" }

theorem c10_mtext_per_line_exclusion_witness :
    transform_text_entity ctxC10 teC10b ["0", "0.0"] = [] ∧
    transform_mtext_entity ctxC10 mtC10 ["0", "0.0"] =
      transform_mtext_entity ctxC10 { mtC10 with lines := [teC10a] } ["0", "0.0"] := by
  have h := c10_mtext_per_line_exclusion ctxC10 mtC10 ["0", "0.0"]
    [teC10a] [] teC10b (by simp [mtC10]) (by simp [teC10b]) (by simp [mtC10])
  simpa using h

/-! ### Claim C2 -/

/-- Claim C2 (amended): when glyph path creation fails for a character, the
run is not aborted and no geometry is emitted for it, but the pen does not
advance at all (the loop iteration is skipped by `continue`); the
`height * 0.5` fallback advance applies only when the path exists and the
width measurement fails. -/
theorem c2_glyph_failure_no_advance :
    (∀ (ctx : Ctx) (e : TextEntity) (c s : ℚ) (pos : V3) (ch : Char),
        ctx.glyph ch e.height = none →
        charStep ctx e c s pos ch = (pos, [])) ∧
    (∀ (ctx : Ctx) (e : TextEntity) (c s : ℚ) (pos : V3) (ch : Char)
        (rest : List Char),
        ctx.glyph ch e.height = none →
        charLoop ctx e c s pos (ch :: rest) = charLoop ctx e c s pos rest) ∧
    (∀ (ctx : Ctx) (e : TextEntity) (c s : ℚ) (pos : V3) (ch : Char)
        (p : CharPath),
        ctx.glyph ch e.height = some p → p.extentsWidth = none →
        (charStep ctx e c s pos ch).1 =
          vadd pos (rotVec c s (e.height * (1/2), 0, 0))) := by
  refine ⟨?_, ?_, ?_⟩
  · intro ctx e c s pos ch hg
    simp [charStep, hg]
  · intro ctx e c s pos ch rest hg
    simp [charLoop, charStep, hg]
  · intro ctx e c s pos ch p hg hw
    simp [charStep, hg, hw]

/-- Oracle on which every glyph path creation fails. -/
def ctxC2 : Ctx :=
  { glyph := fun _ _ => none, cosd := fun _ => 1, sind := fun _ => 0,
    transform := fun x y => (x, y), fontName := "F" }

/-- Oracle on which the path exists but width measurement fails. -/
def ctxC2b : Ctx :=
  { glyph := fun _ _ => some { vertices := [], extentsWidth := none },
    cosd := fun _ => 1, sind := fun _ => 0,
    transform := fun x y => (x, y), fontName := "F" }

def teC2 : TextEntity :=
  { text := "AB", insert := (0, 0, 0), height := 2, rotation := 0,
    layer := "L", hasDoc := true, ocsToWcs := fun q => q }

theorem c2_glyph_failure_cex :
    ctxC2.glyph 'A' teC2.height = none ∧ teC2.height * (1/2) = 1 ∧
    (charStep ctxC2 teC2 1 0 (0, 0, 0) 'A').1 = ((0 : ℚ), (0 : ℚ), (0 : ℚ)) ∧
    ((0 : ℚ), (0 : ℚ), (0 : ℚ)) ≠ ((1 : ℚ), (0 : ℚ), (0 : ℚ)) := by
  refine ⟨rfl, by norm_num [teC2], by simp [charStep, ctxC2], ?_⟩
  simp only [ne_eq, Prod.mk.injEq, not_and]
  intro h
  exact absurd h (by norm_num)

theorem c2_glyph_failure_witness :
    charStep ctxC2 teC2 1 0 (0, 0, 0) 'A' = ((0, 0, 0), []) ∧
    charLoop ctxC2 teC2 1 0 (0, 0, 0) ('A' :: ['B']) =
      charLoop ctxC2 teC2 1 0 (0, 0, 0) ['B'] ∧
    (charStep ctxC2b teC2 1 0 (0, 0, 0) 'A').1 =
      vadd (0, 0, 0) (rotVec 1 0 (teC2.height * (1/2), 0, 0)) :=
  ⟨c2_glyph_failure_no_advance.1 ctxC2 teC2 1 0 (0, 0, 0) 'A' rfl,
   c2_glyph_failure_no_advance.2.1 ctxC2 teC2 1 0 (0, 0, 0) 'A' ['B'] rfl,
   c2_glyph_failure_no_advance.2.2 ctxC2b teC2 1 0 (0, 0, 0) 'A'
     { vertices := [], extentsWidth := none } rfl rfl⟩

/-! ### Claim C6 -/

/-- Claim C6 (amended): a whitespace character contributes no geometry, and
in the total-width pass it counts as `height * 0.5`; but in the layout pass
the pen advance of any character whose path resolves is its measured
extents width (whitespace included) — `height * 0.5` only when the width
measurement fails, and no advance at all when path creation fails. -/
theorem c6_whitespace_advance :
    (∀ (ctx : Ctx) (e : TextEntity) (c s : ℚ) (pos : V3) (ch : Char),
        pyIsSpace ch = true → (charStep ctx e c s pos ch).2 = []) ∧
    (∀ (ctx : Ctx) (h : ℚ) (ch : Char) (rest : List Char),
        pyIsSpace ch = true →
        charWidthSum ctx h (ch :: rest) = h * (1/2) + charWidthSum ctx h rest) ∧
    (∀ (ctx : Ctx) (e : TextEntity) (c s : ℚ) (pos : V3) (ch : Char)
        (p : CharPath) (w : ℚ),
        ctx.glyph ch e.height = some p → p.extentsWidth = some w →
        (charStep ctx e c s pos ch).1 = vadd pos (rotVec c s (w, 0, 0))) ∧
    (∀ (ctx : Ctx) (e : TextEntity) (c s : ℚ) (pos : V3) (ch : Char),
        ctx.glyph ch e.height = none → (charStep ctx e c s pos ch).1 = pos) := by
  refine ⟨?_, ?_, ?_, ?_⟩
  · intro ctx e c s pos ch hsp
    cases hg : ctx.glyph ch e.height with
    | none => simp [charStep, hg]
    | some p => simp [charStep, hg, hsp]
  · intro ctx h ch rest hsp
    simp [charWidthSum, hsp]
  · intro ctx e c s pos ch p w hg hw
    simp [charStep, hg, hw]
  · intro ctx e c s pos ch hg
    simp [charStep, hg]

/-- Oracle giving the space character a resolvable path whose measured
extents width is 7 (not `height * 0.5`). -/
def ctxC6 : Ctx :=
  { glyph := fun _ _ => some { vertices := [], extentsWidth := some 7 },
    cosd := fun _ => 1, sind := fun _ => 0,
    transform := fun x y => (x, y), fontName := "F" }

def ctxC6n : Ctx :=
  { glyph := fun _ _ => none, cosd := fun _ => 1, sind := fun _ => 0,
    transform := fun x y => (x, y), fontName := "G" }

def teC6 : TextEntity :=
  { text := "a b", insert := (0, 0, 0), height := 2, rotation := 0,
    layer := "L", hasDoc := true, ocsToWcs := fun q => q }

theorem c6_whitespace_cex :
    pyIsSpace ' ' = true ∧ teC6.height * (1/2) = 1 ∧
    (charStep ctxC6 teC6 1 0 (0, 0, 0) ' ').1 = ((7 : ℚ), (0 : ℚ), (0 : ℚ)) ∧
    ((7 : ℚ), (0 : ℚ), (0 : ℚ)) ≠ ((1 : ℚ), (0 : ℚ), (0 : ℚ)) := by
  refine ⟨rfl, by norm_num [teC6], ?_, ?_⟩
  · norm_num [charStep, ctxC6, vadd, rotVec]
  · simp only [ne_eq, Prod.mk.injEq, not_and]
    intro h
    exact absurd h (by norm_num)

theorem c6_whitespace_witness :
    (charStep ctxC6 teC6 1 0 (0, 0, 0) ' ').2 = [] ∧
    charWidthSum ctxC6 teC6.height [' '] =
      teC6.height * (1/2) + charWidthSum ctxC6 teC6.height [] ∧
    (charStep ctxC6 teC6 1 0 (0, 0, 0) ' ').1 =
      vadd (0, 0, 0) (rotVec 1 0 (7, 0, 0)) ∧
    (charStep ctxC6n teC6 1 0 (0, 0, 0) 'A').1 = (0, 0, 0) :=
  ⟨c6_whitespace_advance.1 ctxC6 teC6 1 0 (0, 0, 0) ' ' rfl,
   c6_whitespace_advance.2.1 ctxC6 teC6.height ' ' [] rfl,
   c6_whitespace_advance.2.2.1 ctxC6 teC6 1 0 (0, 0, 0) ' '
     { vertices := [], extentsWidth := some 7 } 7 rfl rfl,
   c6_whitespace_advance.2.2.2 ctxC6n teC6 1 0 (0, 0, 0) 'A' rfl⟩

/-! ### Claim C8 -/

lemma charLoop_ne_nil (ctx : Ctx) (e : TextEntity) (c s : ℚ) :
    ∀ (cs : List Char) (pos : V3),
      (∃ ch ∈ cs, pyIsSpace ch = false ∧
        ∃ p, ctx.glyph ch e.height = some p ∧ 3 ≤ p.vertices.length) →
      charLoop ctx e c s pos cs ≠ [] := by
  intro cs
  induction cs with
  | nil =>
    intro pos h
    obtain ⟨ch, hm, -⟩ := h
    simp at hm
  | cons ch0 rest ih =>
    intro pos h hcontra
    simp only [charLoop] at hcontra
    rw [List.append_eq_nil] at hcontra
    obtain ⟨ch, hm, hsp, p, hg, hlen⟩ := h
    rcases List.mem_cons.mp hm with rfl | hm2
    · have hnil : (charStep ctx e c s pos ch).2 = [] := hcontra.1
      simp only [charStep, hg] at hnil
      rw [if_neg (by simp [hsp]), if_pos (by simpa using hlen)] at hnil
      simp at hnil
    · exact ih (charStep ctx e c s pos ch0).1 ⟨ch, hm2, hsp, p, hg, hlen⟩ hcontra.2

/-- Claim C8 (amended): content exactly equal to an excluded string yields
zero features (for TEXT by `dxf.text`, for MTEXT by `plain_text()`); a
non-excluded TEXT entity with a document produces at least one feature
whenever glyph resolution succeeds with an outline of at least 3 vertices
for at least one non-whitespace character. -/
theorem c8_exclusion_correctness :
    (∀ (ctx : Ctx) (e : TextEntity) (exclude : List String),
        e.text ∈ exclude → transform_text_entity ctx e exclude = []) ∧
    (∀ (ctx : Ctx) (m : MTextEntity) (exclude : List String),
        m.plainText ∈ exclude → transform_mtext_entity ctx m exclude = []) ∧
    (∀ (ctx : Ctx) (e : TextEntity) (exclude : List String),
        e.text ∉ exclude → e.hasDoc = true →
        (∃ ch ∈ e.text.toList, pyIsSpace ch = false ∧
          ∃ p, ctx.glyph ch e.height = some p ∧ 3 ≤ p.vertices.length) →
        transform_text_entity ctx e exclude ≠ []) := by
  refine ⟨?_, ?_, ?_⟩
  · intro ctx e exclude h
    simp [transform_text_entity, h]
  · intro ctx m exclude h
    simp [transform_mtext_entity, h]
  · intro ctx e exclude hex hdoc hgood
    simp only [transform_text_entity, hex, if_false, hdoc]
    exact charLoop_ne_nil ctx e _ _ _ _ hgood

/-- Oracle resolving the glyph of `A` with only 2 outline vertices. -/
def ctxC8 : Ctx :=
  { glyph := fun ch _ =>
      if ch = 'A' then some { vertices := [(0, 0), (1, 0)], extentsWidth := some 1 }
      else none,
    cosd := fun _ => 1, sind := fun _ => 0, transform := fun x y => (x, y),
    fontName := "F" }

def teC8 : TextEntity :=
  { text := "A", insert := (0, 0, 0), height := 2, rotation := 0,
    layer := "L", hasDoc := true, ocsToWcs := fun q => q }

theorem c8_exclusion_cex :
    transform_text_entity ctxC8 teC8 [] = [] ∧
    teC8.text ∉ ([] : List String) ∧ teC8.hasDoc = true ∧
    pyIsSpace 'A' = false ∧ (ctxC8.glyph 'A' teC8.height).isSome = true := by
  refine ⟨?_, by simp, rfl, rfl, rfl⟩
  norm_num [transform_text_entity, ctxC8, teC8, charWidthSum, charLoop,
    charStep, charXform, rotVec, vadd, pyIsSpace]

/-- Oracle resolving the glyph of `A` with a 3-vertex outline. -/
def ctxC8w : Ctx :=
  { glyph := fun ch _ =>
      if ch = 'A' then
        some { vertices := [(0, 0), (1, 0), (0, 1)], extentsWidth := some 1 }
      else none,
    cosd := fun _ => 1, sind := fun _ => 0, transform := fun x y => (x, y),
    fontName := "F" }

def teC8w : TextEntity :=
  { text := "A", insert := (0, 0, 0), height := 2, rotation := 0,
    layer := "L", hasDoc := true, ocsToWcs := fun q => q }

def teC8x : TextEntity :=
  { text := "X", insert := (0, 0, 0), height := 2, rotation := 0,
    layer := "L", hasDoc := true, ocsToWcs := fun q => q }

theorem c8_exclusion_witness :
    transform_text_entity ctxC8w teC8w [] ≠ [] ∧
    transform_text_entity ctxC8w teC8x ["X"] = [] :=
  ⟨c8_exclusion_correctness.2.2 ctxC8w teC8w [] (by simp) rfl
     ⟨'A', by decide, rfl,
      { vertices := [(0, 0), (1, 0), (0, 1)], extentsWidth := some 1 }, rfl,
      by decide⟩,
   c8_exclusion_correctness.1 ctxC8w teC8x ["X"] (by simp [teC8x])⟩

/-! ### Claim C3 -/

/-- Claim C3 (amended): a font resource that cannot be loaded is NOT a
fatal error — the script warns, falls back to the system default
sans-serif font, and the run still processes all entities with the
fallback font and reaches the output step. -/
theorem c3_font_fallback_not_fatal :
    ∀ (cfg : RunConfig) (es : List Entity),
      cfg.readResult = some es → cfg.crsOk = true → cfg.fontOk = false →
      es ≠ [] →
      (dxf_to_geojson cfg).fontFallback = true ∧
      (dxf_to_geojson cfg).written =
        some (walkEntities (mkCtx cfg cfg.defaultFontName)
          cfg.exclude cfg.fuel es []) := by
  intro cfg es hr hcrs hfont hne
  have hie : es.isEmpty = false := by
    cases es with
    | nil => exact absurd rfl hne
    | cons a l => rfl
  constructor <;>
    simp [dxf_to_geojson, hr, hcrs, hie, get_font_properties, hfont]

def teC3 : TextEntity :=
  { text := "A", insert := (0, 0, 0), height := 2, rotation := 0,
    layer := "L", hasDoc := true, ocsToWcs := fun q => q }

/-- Run with an unloadable font path (`fontOk = false`). -/
def cfgC3 : RunConfig :=
  { readResult := some [Entity.text teC3], fontOk := false,
    requestedFontName := "F", defaultFontName := "D", crsOk := true, fuel := 0,
    exclude := ["0", "0.0"],
    glyph := fun _ ch _ =>
      if ch = 'A' then
        some { vertices := [(0, 0), (1, 0), (0, 1)], extentsWidth := some 1 }
      else none,
    cosd := fun _ => 1, sind := fun _ => 0, transform := fun x y => (x, y) }

def featC3 : Feature :=
  { polygon := [(-(1/2), 0), (1/2, 0), (-(1/2), 1)], text := "A", char := 'A',
    layer := "L", font := "D", insertX := 0, insertY := 0 }

theorem c3_font_fatal_cex :
    cfgC3.fontOk = false ∧ (dxf_to_geojson cfgC3).written = some [featC3] ∧
    some [featC3] ≠ (none : Option (List Feature)) ∧
    (dxf_to_geojson cfgC3).fontFallback = true := by
  have h : (dxf_to_geojson cfgC3).written = some [featC3] := by
    norm_num [dxf_to_geojson, cfgC3, teC3, featC3, get_font_properties, mkCtx,
      walkEntities, processEntityFeatures, transform_text_entity, charWidthSum,
      charLoop, charStep, charXform, rotVec, vadd, pyIsSpace]
    rw [if_neg (by decide), if_neg (by decide)]
  refine ⟨rfl, h, by simp, ?_⟩
  norm_num [dxf_to_geojson, cfgC3, get_font_properties]

def teC3w : TextEntity :=
  { text := "B", insert := (0, 0, 0), height := 2, rotation := 0,
    layer := "L", hasDoc := true, ocsToWcs := fun q => q }

def cfgC3w : RunConfig :=
  { readResult := some [Entity.text teC3w], fontOk := false,
    requestedFontName := "F", defaultFontName := "D", crsOk := true, fuel := 0,
    exclude := [], glyph := fun _ _ _ => none,
    cosd := fun _ => 1, sind := fun _ => 0, transform := fun x y => (x, y) }

theorem c3_font_fallback_witness :
    (dxf_to_geojson cfgC3w).fontFallback = true ∧
    (dxf_to_geojson cfgC3w).written =
      some (walkEntities (mkCtx cfgC3w cfgC3w.defaultFontName)
        cfgC3w.exclude cfgC3w.fuel [Entity.text teC3w] []) :=
  c3_font_fallback_not_fatal cfgC3w [Entity.text teC3w] rfl rfl rfl (by simp)

/-! ### Claim C4 -/

/-- Claim C4 (amended): when the modelspace query finds zero
TEXT/MTEXT/INSERT entities, the script warns and returns WITHOUT writing
any output file; only when entities exist but zero features are produced
does it warn and still write an empty (valid) collection. -/
theorem c4_empty_runs :
    (∀ cfg : RunConfig, cfg.readResult = some [] → cfg.crsOk = true →
        (dxf_to_geojson cfg).written = none ∧
        (dxf_to_geojson cfg).warnedNoEntities = true) ∧
    (∀ (cfg : RunConfig) (es : List Entity), cfg.readResult = some es →
        cfg.crsOk = true → es ≠ [] →
        walkEntities (mkCtx cfg (get_font_properties cfg).1)
          cfg.exclude cfg.fuel es [] = [] →
        (dxf_to_geojson cfg).written = some [] ∧
        (dxf_to_geojson cfg).warnedNoFeatures = true) := by
  constructor
  · intro cfg hr hcrs
    constructor <;> simp [dxf_to_geojson, hr, hcrs]
  · intro cfg es hr hcrs hne hwalk
    have hie : es.isEmpty = false := by
      cases es with
      | nil => exact absurd rfl hne
      | cons a l => rfl
    constructor <;> simp [dxf_to_geojson, hr, hcrs, hie, hwalk]

/-- Run whose modelspace query result is empty. -/
def cfgC4 : RunConfig :=
  { readResult := some [], fontOk := true, requestedFontName := "F",
    defaultFontName := "D", crsOk := true, fuel := 0, exclude := [],
    glyph := fun _ _ _ => none, cosd := fun _ => 1, sind := fun _ => 0,
    transform := fun x y => (x, y) }

theorem c4_zero_entities_cex :
    (dxf_to_geojson cfgC4).written = none ∧
    (dxf_to_geojson cfgC4).warnedNoEntities = true ∧
    (none : Option (List Feature)) ≠ some [] := by
  refine ⟨rfl, rfl, by simp⟩

def teC4 : TextEntity :=
  { text := "0", insert := (0, 0, 0), height := 2, rotation := 0,
    layer := "L", hasDoc := true, ocsToWcs := fun q => q }

/-- Run with one entity whose text is excluded, so zero features result. -/
def cfgC4w : RunConfig :=
  { readResult := some [Entity.text teC4], fontOk := true,
    requestedFontName := "F", defaultFontName := "D", crsOk := true, fuel := 0,
    exclude := ["0", "0.0"], glyph := fun _ _ _ => none,
    cosd := fun _ => 1, sind := fun _ => 0, transform := fun x y => (x, y) }

theorem c4_empty_runs_witness :
    ((dxf_to_geojson cfgC4).written = none ∧
      (dxf_to_geojson cfgC4).warnedNoEntities = true) ∧
    ((dxf_to_geojson cfgC4w).written = some [] ∧
      (dxf_to_geojson cfgC4w).warnedNoFeatures = true) :=
  ⟨c4_empty_runs.1 cfgC4 rfl rfl,
   c4_empty_runs.2 cfgC4w [Entity.text teC4] rfl rfl (by simp) (by decide)⟩

/-! ### Claim C5 -/

/-- Claim C5 (amended): the initial pen offset of a TEXT run is
`-totalWidth/2` with `totalWidth` as the script's width pass computes it,
and the pre-rotation horizontal bounding span of the emitted geometry is
centered on the insertion point's x-coordinate PROVIDED every character of
the run resolves ideally (non-whitespace, measurable nonnegative width,
at least 3 outline vertices, and the outline's x-extent equal to
`[0, width]`, i.e. zero left side bearing); with nonzero side bearings the
midpoint deviates by `(minX(first) + minX(last))/2`. -/
theorem c5_centering :
    ∀ (ctx : Ctx) (e : TextEntity) (exclude : List String),
      e.text ∉ exclude → e.hasDoc = true →
      ctx.cosd e.rotation = 1 → ctx.sind e.rotation = 0 →
      (∀ q, e.ocsToWcs q = q) → (∀ x y, ctx.transform x y = (x, y)) →
      e.text.toList ≠ [] →
      (∀ ch ∈ e.text.toList, NiceChar ctx e.height ch) →
      ∃ lo hi,
        (∀ x ∈ xsOf (transform_text_entity ctx e exclude), lo ≤ x ∧ x ≤ hi) ∧
        lo ∈ xsOf (transform_text_entity ctx e exclude) ∧
        hi ∈ xsOf (transform_text_entity ctx e exclude) ∧
        lo = e.insert.1 - charWidthSum ctx e.height e.text.toList / 2 ∧
        hi = e.insert.1 + charWidthSum ctx e.height e.text.toList / 2 ∧
        (lo + hi) / 2 = e.insert.1 := by
  intro ctx e exclude hex hdoc hc hs hocs htr hne hnice
  have htte : transform_text_entity ctx e exclude =
      charLoop ctx e 1 0
        (vadd e.insert
          (rotVec 1 0 (-(charWidthSum ctx e.height e.text.toList / 2), 0, 0)))
        e.text.toList := by
    simp [transform_text_entity, hex, hdoc, hc, hs]
  set pos0 := vadd e.insert
    (rotVec 1 0 (-(charWidthSum ctx e.height e.text.toList / 2), 0, 0)) with hpos0
  have hp1 : pos0.1 = e.insert.1 - charWidthSum ctx e.height e.text.toList / 2 := by
    simp only [hpos0, vadd, rotVec]
    ring
  obtain ⟨hb, hlo, hhi⟩ := charLoop_span ctx e hocs htr e.text.toList pos0 hne hnice
  refine ⟨pos0.1, pos0.1 + charWidthSum ctx e.height e.text.toList,
    ?_, ?_, ?_, hp1, ?_, ?_⟩
  · rw [htte]; exact hb
  · rw [htte]; exact hlo
  · rw [htte]; exact hhi
  · rw [hp1]; ring
  · rw [hp1]; ring

/-- Oracle whose glyph for `A` has a nonzero left side bearing: the
outline spans x ∈ [1, 2] while the measured extents width is 1. -/
def ctxC5 : Ctx :=
  { glyph := fun ch _ =>
      if ch = 'A' then
        some { vertices := [(1, 0), (2, 0), (1, 1)], extentsWidth := some 1 }
      else none,
    cosd := fun _ => 1, sind := fun _ => 0, transform := fun x y => (x, y),
    fontName := "F" }

def teC5 : TextEntity :=
  { text := "A", insert := (0, 0, 0), height := 2, rotation := 0,
    layer := "L", hasDoc := true, ocsToWcs := fun q => q }

theorem c5_centering_cex :
    xsOf (transform_text_entity ctxC5 teC5 []) = [1/2, 3/2, 1/2] ∧
    teC5.insert.1 = 0 ∧ ((1 : ℚ)/2 + 3/2) / 2 ≠ 0 := by
  refine ⟨?_, rfl, by norm_num⟩
  norm_num [xsOf, transform_text_entity, ctxC5, teC5, charWidthSum, charLoop,
    charStep, charXform, rotVec, vadd, pyIsSpace]
  rw [if_neg (by decide)]
  rfl

/-- Ideal-glyph oracle for the C5 witness: outline x-extent `[0, 2]`,
measured width 2, zero left side bearing. -/
def ctxC5w : Ctx :=
  { glyph := fun ch _ =>
      if ch = 'A' then
        some { vertices := [(0, 0), (2, 0), (1, 1)], extentsWidth := some 2 }
      else none,
    cosd := fun _ => 1, sind := fun _ => 0, transform := fun x y => (x, y),
    fontName := "F" }

def teC5w : TextEntity :=
  { text := "A", insert := (5, 0, 0), height := 2, rotation := 0,
    layer := "L", hasDoc := true, ocsToWcs := fun q => q }

theorem c5_centering_witness :
    ∃ lo hi,
      (∀ x ∈ xsOf (transform_text_entity ctxC5w teC5w []), lo ≤ x ∧ x ≤ hi) ∧
      lo ∈ xsOf (transform_text_entity ctxC5w teC5w []) ∧
      hi ∈ xsOf (transform_text_entity ctxC5w teC5w []) ∧
      lo = teC5w.insert.1 - charWidthSum ctxC5w teC5w.height teC5w.text.toList / 2 ∧
      hi = teC5w.insert.1 + charWidthSum ctxC5w teC5w.height teC5w.text.toList / 2 ∧
      (lo + hi) / 2 = teC5w.insert.1 := by
  refine c5_centering ctxC5w teC5w [] (by simp) rfl rfl rfl
    (fun q => rfl) (fun x y => rfl) (by decide) ?_
  intro ch hch
  have hch2 : ch ∈ ['A'] := hch
  have hcha : ch = 'A' := by simpa using hch2
  subst hcha
  refine ⟨rfl, { vertices := [(0, 0), (2, 0), (1, 1)], extentsWidth := some 2 },
    2, rfl, rfl, by norm_num, by decide, ?_, ⟨(0, 0), by simp, rfl⟩,
    ⟨(2, 0), by simp, rfl⟩⟩
  intro v hv
  simp only [List.mem_cons, List.mem_singleton, List.not_mem_nil, or_false] at hv
  rcases hv with rfl | rfl | rfl <;> norm_num
